import Mathlib

/-!
Verification of the `management` app (session-management repository):
a shallow embedding of `management/utils.py` (activity logging and the
RBAC helpers), of the call shapes in `management/signals.py`, and of the
Excel import/export row logic in `management/views.py`.

Django model instances are embedded as Lean structures; querysets over
the user table are lists; `RecentActivity.objects.create` is modelled by
returning the list of created rows in creation order; exceptions raised
by Python are an `Except` error value.
-/

namespace SessionMgmt

/-- `Company` model (`models.py`): identified by primary key, carries a name
(used in log descriptions). Django compares model instances by primary key. -/
structure Company where
  id : Nat
  name : String
deriving DecidableEq, Repr

/-- `UserProfile` model (`models.py`): nullable `company` foreign key and a
nullable `role` charfield holding `"ADMIN"`, `"MANAGER"` or `"EMPLOYEE"`. -/
structure UserProfile where
  company : Option Company
  role : Option String
deriving DecidableEq, Repr

/-- `django.contrib.auth.models.User` as used by this app. `userprofile` is
the reverse one-to-one accessor: `none` models a user with no profile row
(where `hasattr(u, "userprofile")` is false). `is_authenticated` is always
true on a real `User` row; it is `false` only for the anonymous user. -/
structure User where
  id : Nat
  username : String
  first_name : String
  last_name : String
  is_staff : Bool
  is_authenticated : Bool
  userprofile : Option UserProfile
deriving DecidableEq, Repr

/-- `RecentActivity` model (`models.py`): recipient, description, nullable
company, and the `read` flag which defaults to `False` on creation. -/
structure RecentActivity where
  user_id : Nat
  description : String
  company : Option Company
  read : Bool
deriving DecidableEq, Repr

/-- Python exceptions that the embedded code can raise. -/
inductive PyErr where
  | attributeError (msg : String)
  | typeError (msg : String)
  | integrityError (msg : String)
  | multipleObjectsReturned (msg : String)
deriving DecidableEq, Repr

/-- The inner helper `get_company_for_activity` of `log_activity`
(`utils.py` lines 18-23): the explicit company parameter wins when truthy,
else the user's profile company when the user has a truthy profile. -/
def get_company_for_activity (u : Option User) (company_param : Option Company) :
    Option Company :=
  match company_param with
  | some c => some c
  | none =>
    match u with
    | none => none
    | some u' =>
      match u'.userprofile with
      | none => none
      | some p => p.company

/-- The profile company of an optional user (`u.userprofile.company` guarded
by `hasattr` and truthiness, as in `utils.py` lines 32-35). -/
def profileCompany (u : Option User) : Option Company :=
  match u with
  | none => none
  | some u' =>
    match u'.userprofile with
    | none => none
    | some p => p.company

/-- Whether a user row matches the ORM lookup `userprofile__company=x`.
For `x = some c` this is an equality on the joined profile's company; a user
without a profile row never matches. For `x = none` the lookup compiles to
`company_id IS NULL` over the outer join, which matches both a profile whose
company is null and a user with no profile row at all. -/
def matchesProfileCompany (a : User) (x : Option Company) : Bool :=
  match x with
  | some c =>
    match a.userprofile with
    | some p => p.company == some c
    | none => false
  | none =>
    match a.userprofile with
    | some p => p.company == none
    | none => true

/-- One `RecentActivity.objects.create` per listed user, skipping ids already
in `processed_users` and recording each created recipient id — the loop shape
shared by the three fan-out loops of `log_activity` (`utils.py` 58-79).
State: (rows created so far, processed recipient ids). -/
def notifyEach (users : List User) (mk : User → RecentActivity)
    (st : List RecentActivity × List Nat) : List RecentActivity × List Nat :=
  users.foldl
    (fun st a =>
      if st.2.contains a.id then st
      else (st.1 ++ [mk a], st.2 ++ [a.id]))
    st

/-- `activity_company` as computed at `utils.py` lines 27-37: the explicit
`company_obj` if given, else the acting user's profile company, else the
edited user's profile company, else null. -/
def activityCompanyOf (user edited_user : Option User) (company_obj : Option Company) :
    Option Company :=
  match company_obj with
  | some c => some c
  | none =>
    match profileCompany user with
    | some c => some c
    | none => profileCompany edited_user

/-- `user_company.name if user_company else 'N/A'` (`utils.py` line 70). -/
def companyNameOrNA : Option Company → String
  | some c => c.name
  | none => "N/A"

/-- The two staff fan-out loops of `log_activity` (`utils.py` lines 55-72),
run when the actor is not staff: first the company admins
(`filter(is_staff=True, userprofile__company=user_company)`, only when
`user_company` is truthy), then the super admins
(`filter(is_staff=True).exclude(userprofile__company=user_company or None)`),
each create deduplicated against `processed_users`. -/
def staff_fanout (allUsers : List User) (u : User) (description : String)
    (user_company : Option Company) : List RecentActivity × List Nat :=
  notifyEach
    (allUsers.filter (fun a => a.is_staff && !matchesProfileCompany a user_company))
    (fun a => { user_id := a.id,
                description := u.username ++ " (from " ++
                  companyNameOrNA user_company ++ ") - " ++ description,
                company := none, read := false })
    (match user_company with
     | some c =>
       notifyEach
         (allUsers.filter (fun a => a.is_staff && matchesProfileCompany a (some c)))
         (fun a => { user_id := a.id,
                     description := u.username ++ " - " ++ description,
                     company := some c, read := false })
         ([], [])
     | none => ([], []))

/-- The final loop of `log_activity` (`utils.py` lines 75-79): one create per
target user whose id has not been processed, with the per-recipient company
`get_company_for_activity(u, activity_company)`. -/
def target_fanout (tgts : List User) (description : String)
    (activity_company : Option Company) (st : List RecentActivity × List Nat) :
    List RecentActivity × List Nat :=
  notifyEach tgts
    (fun a => { user_id := a.id, description := description,
                company := get_company_for_activity (some a) activity_company,
                read := false }) st

/-- `log_activity(user, description, target_users, edited_user, company_obj)`
(`utils.py` lines 6-79), over the user table `allUsers`. Returns the list of
`RecentActivity` rows created, in creation order, or the Python exception
raised. With an `edited_user`, exactly that user is notified (lines 40-43).
Otherwise, with `user = None`, the attribute access `user.is_staff` on
line 52 raises `AttributeError` before any row is created; with a non-staff
actor the staff fan-out runs first; finally the target users (defaulting to
`[user]`) are notified, all deduplicated by recipient id. -/
def log_activity (allUsers : List User) (user : Option User) (description : String)
    (target_users : Option (List User)) (edited_user : Option User)
    (company_obj : Option Company) : Except PyErr (List RecentActivity) :=
  match edited_user with
  | some eu =>
    .ok [{ user_id := eu.id, description := description,
           company := get_company_for_activity (some eu)
             (activityCompanyOf user edited_user company_obj),
           read := false }]
  | none =>
    match user with
    | none => .error (.attributeError "NoneType object has no attribute is_staff")
    | some u =>
      (target_fanout (target_users.getD [u]) description
        (activityCompanyOf user none company_obj)
        (if u.is_staff then ([], [])
         else staff_fanout allUsers u description
           (get_company_for_activity (some u)
             (activityCompanyOf user none company_obj)))).1 |> .ok

/-- `is_super_admin` (`utils.py` line 83-85). -/
def is_super_admin (user : User) : Bool :=
  user.is_authenticated && user.is_staff

/-- `get_user_role_in_company` (`utils.py` lines 87-102). -/
def get_user_role_in_company (user : User) (company_obj : Option Company) :
    Option String :=
  if !user.is_authenticated then none
  else
    match user.userprofile with
    | none => none
    | some p =>
      match company_obj with
      | some c => if p.company == some c then p.role else none
      | none => p.role

/-- `is_company_admin` (`utils.py` lines 104-112). -/
def is_company_admin (user : User) (company_obj : Option Company) : Bool :=
  if !user.is_authenticated || user.is_staff then false
  else get_user_role_in_company user company_obj == some "ADMIN"

/-- `is_manager` (`utils.py` lines 114-119). -/
def is_manager (user : User) (company_obj : Option Company) : Bool :=
  if !user.is_authenticated || user.is_staff then false
  else get_user_role_in_company user company_obj == some "MANAGER"

/-- `is_employee` (`utils.py` lines 121-126). -/
def is_employee (user : User) (company_obj : Option Company) : Bool :=
  if !user.is_authenticated || user.is_staff then false
  else get_user_role_in_company user company_obj == some "EMPLOYEE"

/-! ## Python call binding for the `signals.py` receivers

`log_activity` has five positional-or-keyword parameters, of which the first
two have no default, and no `**kwargs`. Each receiver in `signals.py` calls
it with three positional arguments and a `details=` keyword argument. CPython
binds a call only if every keyword names a parameter that is not already
bound positionally; otherwise the call raises `TypeError` before the function
body runs. -/

/-- The parameter list of `def log_activity(user, description,
target_users=None, edited_user=None, company_obj=None)` (`utils.py` line 6). -/
def log_activity_params : List String :=
  ["user", "description", "target_users", "edited_user", "company_obj"]

/-- The parameters of `log_activity` that have no default value. -/
def log_activity_required_params : List String := ["user", "description"]

/-- A Python call site, abstracted to what binding depends on: the number of
positional arguments and the keyword-argument names in order. -/
structure PyCall where
  npos : Nat
  kwargs : List String
deriving DecidableEq, Repr

/-- CPython argument binding for a function with parameter list `params`
(all positional-or-keyword), required ones `required`, and no `**kwargs`:
the call binds iff there are not too many positional arguments, every
keyword names a parameter not bound positionally, no keyword repeats, and
every required parameter gets a value. -/
def bindsOk (params required : List String) (c : PyCall) : Bool :=
  c.npos ≤ params.length &&
  c.kwargs.all (fun k => params.contains k && !(params.take c.npos).contains k) &&
  c.kwargs.Nodup &&
  required.all (fun p => (params.take c.npos).contains p || c.kwargs.contains p)

/-- Outcome of a Python call to `log_activity`: `TypeError` when the
arguments do not bind, otherwise the body runs. -/
def invoke_log_activity (c : PyCall) : Except PyErr Unit :=
  if bindsOk log_activity_params log_activity_required_params c then .ok ()
  else .error (.typeError "log_activity() got an unexpected keyword argument")

/-- `log_user_login` (`signals.py` line 10): `log_activity(user, 'LOGIN',
f"... logged in", details={...})`. -/
def log_user_login_call : PyCall := { npos := 3, kwargs := ["details"] }

/-- `log_user_logout` (`signals.py` line 14). -/
def log_user_logout_call : PyCall := { npos := 3, kwargs := ["details"] }

/-- `log_session_save` (`signals.py` line 20). -/
def log_session_save_call : PyCall := { npos := 3, kwargs := ["details"] }

/-- `log_session_delete` (`signals.py` line 24). -/
def log_session_delete_call : PyCall := { npos := 3, kwargs := ["details"] }

/-- `log_department_save` (`signals.py` line 29). -/
def log_department_save_call : PyCall := { npos := 3, kwargs := ["details"] }

/-- `log_department_delete` (`signals.py` line 33). -/
def log_department_delete_call : PyCall := { npos := 3, kwargs := ["details"] }

/-! ## Excel import/export (`views.py`) -/

/-- A calendar date as produced by `datetime.strptime(..., "%Y/%m/%d").date()`. -/
structure PyDate where
  year : Nat
  month : Nat
  day : Nat
deriving DecidableEq, Repr

/-- Days in a month, with the Gregorian leap rule, as `datetime` validates. -/
def daysInMonth (y m : Nat) : Nat :=
  if m == 2 then
    if (y % 4 == 0 && y % 100 != 0) || y % 400 == 0 then 29 else 28
  else if m == 4 || m == 6 || m == 9 || m == 11 then 30
  else 31

/-- Python `str.split(sep)` for a one-character separator, over the
character list: `"".split` is `[""]`, consecutive separators yield empty
fields. (Structurally recursive so that proofs reduce definitionally.) -/
def splitOnChar (sep : Char) : List Char → List (List Char)
  | [] => [[]]
  | c :: rest =>
    if c == sep then [] :: splitOnChar sep rest
    else
      match splitOnChar sep rest with
      | [] => [[c]]
      | g :: gs => (c :: g) :: gs

/-- The numeric value of a non-empty all-digit field, as `int()`/`strptime`
field parsing reads it; `none` on an empty or non-digit field. -/
def digitsToNat? (cs : List Char) : Option Nat :=
  if cs.isEmpty then none
  else
    cs.foldl
      (fun acc c =>
        match acc with
        | none => none
        | some n => if c.isDigit then some (n * 10 + (c.toNat - 48)) else none)
      (some 0)

/-- `datetime.strptime(date_str, "%Y/%m/%d").date()` (`views.py`): three
slash-separated decimal fields forming a valid calendar date, else the
`ValueError` branch (modelled as `none`). -/
def parseYMD (s : String) : Option PyDate :=
  match (splitOnChar '/' s.data).map digitsToNat? with
  | [some y, some m, some d] =>
    if 1 ≤ m && m ≤ 12 && 1 ≤ d && d ≤ daysInMonth y m then
      some { year := y, month := m, day := d }
    else none
  | _ => none

/-- `assigned_to.split(" ", 1)` unpacked into two names: `none` models the
`ValueError` raised when there is no space to split on; with `maxsplit=1`
everything after the first space stays one field. -/
def splitFirstSpace (s : String) : Option (String × String) :=
  match splitOnChar ' ' s.data with
  | [] => none
  | [_] => none
  | x :: rest => some (⟨x⟩, ⟨List.intercalate [' '] rest⟩)

/-- First components of `STATUSES` (`models.py`). -/
def STATUSES : List String := ["Pending", "Completed", "Cancelled"]

/-- First components of `PLACE_CHOICES` (`models.py`). -/
def PLACE_CHOICES : List String :=
  ["--- Select Place ---", "Customer Lounge", "Auditorium"]

/-- `SessionTopic` model (`models.py` lines 93-122): note that `company` is a
non-nullable foreign key (`null=True` is absent), so persisting a row whose
company is unset violates a NOT NULL constraint. -/
structure SessionTopic where
  topic : String
  conducted_by : Nat
  company : Option Company
  date : PyDate
  status : String
  place : String
  cancelled_reason : Option String
deriving DecidableEq, Repr

/-- One data row of the uploaded spreadsheet, the seven cells as strings
(an empty cell is the empty string, which is falsy in Python). -/
structure ExcelRow where
  no : String
  topic : String
  date_str : String
  status : String
  assigned_to : String
  place : String
  cancelled_reason : String
deriving DecidableEq, Repr

/-- Per-row outcome of the import loop in `upload_sessions_excel`. -/
inductive RowOutcome where
  | skippedEmpty
  | badDate
  | userNotFound
  | badStatus
  | badPlace
  | updated
deriving DecidableEq, Repr

/-- The body of the per-row loop of `upload_sessions_excel` (`views.py`
lines 1038-1116) over user table `usersDB` and session table `db`. Non-fatal
row rejections (`continue` with a message) return the unchanged table and an
outcome; exceptions that escape all the inner `except` clauses —
`MultipleObjectsReturned` from the user lookup or from `get_or_create`, and
`IntegrityError` from the create path, which supplies no `company` for the
non-nullable foreign key — abort the whole batch via the outer handler. -/
def processRow (usersDB : List User) (db : List SessionTopic) (row : ExcelRow) :
    Except PyErr (List SessionTopic × RowOutcome) :=
  if row.topic == "" || row.assigned_to == "" then
    .ok (db, .skippedEmpty)
  else
    match parseYMD row.date_str with
    | none => .ok (db, .badDate)
    | some date =>
      match splitFirstSpace row.assigned_to with
      | none => .ok (db, .userNotFound)
      | some (fn, ln) =>
        match usersDB.filter (fun u => u.first_name == fn && u.last_name == ln) with
        | [] => .ok (db, .userNotFound)
        | [user] =>
          if !STATUSES.contains row.status then .ok (db, .badStatus)
          else if !PLACE_CHOICES.contains row.place then .ok (db, .badPlace)
          else
            match db.filter (fun s => s.topic == row.topic && s.conducted_by == user.id) with
            | [] =>
              .error (.integrityError
                "NOT NULL constraint failed: management_sessiontopic.company_id")
            | [_] =>
              .ok (db.map (fun s =>
                if s.topic == row.topic && s.conducted_by == user.id then
                  { s with date := date, status := row.status, place := row.place,
                           cancelled_reason :=
                             if row.cancelled_reason == "" then none
                             else some row.cancelled_reason }
                else s), .updated)
            | _ => .error (.multipleObjectsReturned "get_or_create matched more than one SessionTopic")
        | _ => .error (.multipleObjectsReturned "get() returned more than one User")

/-- The whole import loop: rows are processed in order; a fatal exception
stops the loop and keeps the table as already committed (each save is its
own statement — no transaction wraps the loop). -/
def upload_rows (usersDB : List User) (db : List SessionTopic)
    (rows : List ExcelRow) : List SessionTopic × List RowOutcome :=
  match rows with
  | [] => (db, [])
  | r :: rest =>
    match processRow usersDB db r with
    | .ok (db', o) =>
      let (db'', os) := upload_rows usersDB db' rest
      (db'', o :: os)
    | .error _ => (db, [])

/-- The dict keys of each `session_data` entry built by `export_sessions`
(`views.py` lines 945-956), in insertion order — these become the DataFrame
columns and hence the written header row. -/
def export_row_keys : List String :=
  ["No.", "Date", "Topic", "Status", "Assigned To", "Place"]

/-- The header row written by `export_sessions`: the columns of
`pd.DataFrame(session_data)`, i.e. the dict keys in insertion order when at
least one `Pending` session exists, and no columns at all otherwise. -/
def export_headers (sessions : List SessionTopic) : List String :=
  if (sessions.filter (fun s => s.status == "Pending")).isEmpty then []
  else export_row_keys

/-- `expected_headers` of `upload_sessions_excel` (`views.py` lines
1049-1057), the literal list the import validates the first row against. -/
def expected_headers : List String :=
  ["No.", "Topic", "Date", "Status", "Assigned To", "Place", "Cancelled Reason"]

/-! ## The read flag (`views.py` `recent_activities`) -/

/-- Line 830 of `views.py`:
`RecentActivity.objects.filter(user=request.user, read=False).update(read=True)` —
the only statement in the repository that mutates existing `RecentActivity`
rows. -/
def mark_read (db : List RecentActivity) (uid : Nat) : List RecentActivity :=
  db.map (fun r => if r.user_id == uid && !r.read then { r with read := true } else r)

/-- `log_activity` as a transition on the `RecentActivity` table: the rows it
creates are appended; when it raises (`user = None`), it has created nothing
before the failing attribute access, so the table is unchanged. -/
def apply_log_activity (db : List RecentActivity) (allUsers : List User)
    (user : Option User) (description : String) (target_users : Option (List User))
    (edited_user : Option User) (company_obj : Option Company) :
    Except PyErr (List RecentActivity) :=
  match log_activity allUsers user description target_users edited_user company_obj with
  | .ok created => .ok (db ++ created)
  | .error e => .error e

/-! ## Concrete fixtures

A two-company world used to instantiate the theorems on concrete inputs. -/

def demoAcme : Company := ⟨1, "Acme"⟩
def demoGlobex : Company := ⟨2, "Globex"⟩

/-- A non-staff actor whose profile is assigned to Acme. -/
def demoActor : User :=
  ⟨10, "alice", "Alice", "Anders", false, true, some ⟨some demoAcme, some "EMPLOYEE"⟩⟩

/-- A staff account scoped to the actor's company. -/
def demoStaffAcme : User :=
  ⟨1, "staffacme", "Sam", "Acme", true, true, some ⟨some demoAcme, none⟩⟩

/-- A staff account scoped to a different company than the actor's. -/
def demoStaffGlobex : User :=
  ⟨2, "staffglobex", "Gail", "Globex", true, true, some ⟨some demoGlobex, none⟩⟩

/-- A staff account whose profile has no company. -/
def demoStaffNoCompany : User :=
  ⟨3, "staffglobal", "Glen", "Global", true, true, some ⟨none, none⟩⟩

def demoUsers : List User :=
  [demoStaffAcme, demoStaffGlobex, demoStaffNoCompany, demoActor]

/-- An authenticated, non-staff account with no profile row. -/
def demoNoProfile : User := ⟨4, "noprofile", "Nora", "Profile", false, true, none⟩

/-- An authenticated, non-staff account whose profile has a role but no
company. -/
def demoRoleNoCompany : User :=
  ⟨5, "orphanadmin", "Oran", "Admin", false, true, some ⟨none, some "ADMIN"⟩⟩

def demoEmployeeAcme : User :=
  ⟨6, "emp", "Emma", "Ployee", false, true, some ⟨some demoAcme, some "EMPLOYEE"⟩⟩

def demoJane : User := ⟨7, "jane", "Jane", "Doe", false, true, some ⟨some demoAcme, some "EMPLOYEE"⟩⟩

/-- The literal spreadsheet row of the end-to-end import case. -/
def demoRow6 : ExcelRow :=
  ⟨"1", "Intro to X", "2024/01/15", "Pending", "Jane Doe", "Auditorium", ""⟩

/-- A pre-existing session for Jane with the same (topic, conducted_by) key
and different field values. -/
def demoJaneOldSession : SessionTopic :=
  ⟨"Intro to X", 7, some demoAcme, ⟨2023, 1, 1⟩, "Completed", "Customer Lounge", some "superseded"⟩

/-- The session record after importing `demoRow6` over `demoJaneOldSession`. -/
def demoJaneUpdatedSession : SessionTopic :=
  ⟨"Intro to X", 7, some demoAcme, ⟨2024, 1, 15⟩, "Pending", "Auditorium", none⟩

def demoJohn : User := ⟨8, "john", "John", "Smith", false, true, some ⟨some demoAcme, some "EMPLOYEE"⟩⟩

def demoRow7 : ExcelRow :=
  ⟨"2", "Safety Basics", "2024/03/02", "Completed", "John Smith", "Customer Lounge", ""⟩

def demoJohnSession : SessionTopic :=
  ⟨"Safety Basics", 8, some demoAcme, ⟨2023, 5, 1⟩, "Pending", "Auditorium", some "old"⟩

def demoJohnSessionUpdated : SessionTopic :=
  ⟨"Safety Basics", 8, some demoAcme, ⟨2024, 3, 2⟩, "Completed", "Customer Lounge", none⟩

def demoPendingSession : SessionTopic :=
  ⟨"Intro to X", 7, some demoAcme, ⟨2024, 1, 15⟩, "Pending", "Auditorium", none⟩

def demoDb : List RecentActivity := [⟨1, "old entry", none, true⟩]

/-- The rows of a successful result, `[]` on an exception. -/
def okRows (e : Except PyErr (List RecentActivity)) : List RecentActivity :=
  match e with
  | .ok l => l
  | .error _ => []

/-! ## Fan-out lemmas

`processed_users` mirrors the recipients of the rows created so far, in
order and without repetition; this is the invariant behind the dedup
guarantees of `log_activity`. -/

/-- Invariant tying `processed_users` to the created rows: the processed ids
are exactly the recipients of the created rows, in order, without repeats. -/
def uidInv (st : List RecentActivity × List Nat) : Prop :=
  st.2 = st.1.map RecentActivity.user_id ∧ st.2.Nodup

theorem uidInv_nil : uidInv ([], []) := ⟨rfl, List.nodup_nil⟩

theorem notifyEach_cons (a : User) (rest : List User) (mk : User → RecentActivity)
    (st : List RecentActivity × List Nat) :
    notifyEach (a :: rest) mk st =
      notifyEach rest mk
        (if st.2.contains a.id then st else (st.1 ++ [mk a], st.2 ++ [a.id])) := rfl

theorem notifyEach_inv (mk : User → RecentActivity)
    (hmk : ∀ a, (mk a).user_id = a.id) :
    ∀ (users : List User) (st : List RecentActivity × List Nat),
      uidInv st → uidInv (notifyEach users mk st) := by
  intro users
  induction users with
  | nil => intro st h; exact h
  | cons a rest ih =>
    intro st h
    rw [notifyEach_cons]
    by_cases hc : st.2.contains a.id
    · simp only [hc, if_true]
      exact ih st h
    · simp only [hc, if_false]
      refine ih _ ⟨?_, ?_⟩
      · simp [h.1, hmk a]
      · have hmem : a.id ∉ st.2 := by
          simpa using hc
        simp [List.nodup_append, h.2, hmem]

theorem notifyEach_mem (mk : User → RecentActivity) :
    ∀ (users : List User) (st : List RecentActivity × List Nat) (i : Nat),
      i ∈ (notifyEach users mk st).2 ↔ i ∈ st.2 ∨ ∃ a ∈ users, a.id = i := by
  intro users
  induction users with
  | nil => intro st i; simp [notifyEach]
  | cons a rest ih =>
    intro st i
    rw [notifyEach_cons]
    by_cases hc : st.2.contains a.id
    · simp only [hc, if_true, ih]
      have ha : a.id ∈ st.2 := by simpa using hc
      constructor
      · rintro (h | h)
        · exact Or.inl h
        · exact Or.inr (by simpa using Or.inr (by simpa using h))
      · rintro (h | h)
        · exact Or.inl h
        · rcases (by simpa using h : a.id = i ∨ ∃ b ∈ rest, b.id = i) with h' | h'
          · exact Or.inl (h' ▸ ha)
          · exact Or.inr h'
    · simp only [hc, if_false, ih]
      constructor
      · rintro (h | h)
        · rcases (by simpa using h : i ∈ st.2 ∨ i = a.id) with h' | h'
          · exact Or.inl h'
          · exact Or.inr (by simp [h'.symm])
        · rcases h with ⟨b, hb, hbi⟩
          exact Or.inr ⟨b, by simp [hb], hbi⟩
      · rintro (h | h)
        · exact Or.inl (by simp [h])
        · rcases h with ⟨b, hb, hbi⟩
          rcases (by simpa using hb : b = a ∨ b ∈ rest) with h' | h'
          · exact Or.inl (by simp [h' ▸ hbi.symm])
          · exact Or.inr ⟨b, h', hbi⟩

/-- Under the invariant, the number of rows addressed to a given recipient id
is 1 when the id was processed and 0 otherwise. -/
theorem countP_of_uidInv (st : List RecentActivity × List Nat) (h : uidInv st)
    (i : Nat) :
    st.1.countP (fun r => r.user_id == i) = if i ∈ st.2 then 1 else 0 := by
  have hcount : st.1.countP (fun r => r.user_id == i) = st.2.count i := by
    rw [h.1, List.count, List.countP_map]
    rfl
  rw [hcount]
  by_cases hm : i ∈ st.2
  · simp [hm, List.count_eq_one_of_mem h.2 hm]
  · simp [hm, List.count_eq_zero_of_not_mem hm]

theorem staff_fanout_inv (allUsers : List User) (u : User) (description : String)
    (user_company : Option Company) :
    uidInv (staff_fanout allUsers u description user_company) := by
  unfold staff_fanout
  apply notifyEach_inv _ (fun a => rfl)
  cases user_company with
  | none => exact uidInv_nil
  | some c => exact notifyEach_inv _ (fun a => rfl) _ _ uidInv_nil

/-- Every staff row of the user table gets processed by the staff fan-out:
a staff user either matches `userprofile__company=c` and lands in the
company-admin queryset, or fails the lookup and lands in the excluded-set
complement (the "super admin" queryset). -/
theorem staff_fanout_mem (allUsers : List User) (u : User) (description : String)
    (c : Company) (a : User) (ha : a ∈ allUsers) (hstaff : a.is_staff = true) :
    a.id ∈ (staff_fanout allUsers u description (some c)).2 := by
  unfold staff_fanout
  rw [notifyEach_mem]
  by_cases hm : matchesProfileCompany a (some c)
  · left
    rw [notifyEach_mem]
    right
    exact ⟨a, List.mem_filter.mpr ⟨ha, by simp [hstaff, hm]⟩, rfl⟩
  · right
    exact ⟨a, List.mem_filter.mpr ⟨ha, by simp [hstaff, hm]⟩, rfl⟩

theorem target_fanout_inv (tgts : List User) (description : String)
    (activity_company : Option Company) (st : List RecentActivity × List Nat)
    (h : uidInv st) : uidInv (target_fanout tgts description activity_company st) :=
  notifyEach_inv _ (fun _ => rfl) _ _ h

theorem target_fanout_mem_of_mem (tgts : List User) (description : String)
    (activity_company : Option Company) (st : List RecentActivity × List Nat)
    (i : Nat) (h : i ∈ st.2) :
    i ∈ (target_fanout tgts description activity_company st).2 := by
  unfold target_fanout
  rw [notifyEach_mem]
  exact Or.inl h

/-! ## Claims -/

/-- C2: for every account (an authenticated `User` row; `is_authenticated`
is always true on real accounts) with the global staff flag set,
`is_super_admin` is true and `is_company_admin`, `is_manager`, `is_employee`
are false for every company argument, including the omitted one (`none`);
conversely `is_super_admin` is false whenever the staff flag is unset. -/
theorem super_admin_excludes_company_roles (u : User)
    (hauth : u.is_authenticated = true) :
    (u.is_staff = true →
      is_super_admin u = true ∧
      ∀ co : Option Company,
        is_company_admin u co = false ∧ is_manager u co = false ∧
        is_employee u co = false) ∧
    (u.is_staff = false → is_super_admin u = false) := by
  constructor
  · intro hs
    refine ⟨by simp [is_super_admin, hauth, hs], fun co => ?_⟩
    simp [is_company_admin, is_manager, is_employee, hs]
  · intro hs
    simp [is_super_admin, hs]

/-- Witness for C2 at the concrete staff account `demoStaffAcme`. -/
theorem super_admin_excludes_company_roles_witness :
    is_super_admin demoStaffAcme = true ∧
    is_company_admin demoStaffAcme none = false ∧
    is_manager demoStaffAcme (some demoGlobex) = false ∧
    is_employee demoStaffAcme none = false := by
  have h := super_admin_excludes_company_roles demoStaffAcme rfl
  exact ⟨(h.1 rfl).1, ((h.1 rfl).2 none).1, ((h.1 rfl).2 (some demoGlobex)).2.1,
    ((h.1 rfl).2 none).2.2⟩

/-- C3, counterexample: an authenticated non-staff account whose profile has
a role but **no** company. The claim says such an account yields `None` from
`get_user_role_in_company` and false from the role predicates for every
company argument *including when it is omitted*; but with the argument
omitted the code returns the profile role (`utils.py` line 102), so
`is_company_admin` is true here. -/
theorem role_without_company_counterexample :
    demoRoleNoCompany.is_authenticated = true ∧
    demoRoleNoCompany.is_staff = false ∧
    demoRoleNoCompany.userprofile = some ⟨none, some "ADMIN"⟩ ∧
    get_user_role_in_company demoRoleNoCompany none = some "ADMIN" ∧
    is_company_admin demoRoleNoCompany none = true :=
  ⟨rfl, rfl, rfl, rfl, rfl⟩

/-- C3 (amended): for an authenticated account, `get_user_role_in_company`
returns the profile role exactly when the given company equals the profile's
company, and `none` for any other given company (even if the account holds a
role elsewhere); an account with no profile yields `none`/false for every
company argument; but when the company argument is omitted the profile's
role is returned regardless of the profile's company (so a profile with no
company does not yield `none` in the omitted case). -/
theorem get_user_role_in_company_spec (u : User)
    (hauth : u.is_authenticated = true) :
    (u.userprofile = none →
      ∀ co : Option Company,
        get_user_role_in_company u co = none ∧
        is_company_admin u co = false ∧ is_manager u co = false ∧
        is_employee u co = false) ∧
    (∀ p : UserProfile, u.userprofile = some p →
      (∀ c : Company,
        get_user_role_in_company u (some c) =
          if p.company == some c then p.role else none) ∧
      get_user_role_in_company u none = p.role) := by
  constructor
  · intro hnp co
    simp [get_user_role_in_company, is_company_admin, is_manager, is_employee,
      hauth, hnp]
  · intro p hp
    constructor
    · intro c
      simp [get_user_role_in_company, hauth, hp]
    · simp [get_user_role_in_company, hauth, hp]

/-- Witness for C3's amended theorem, at an account with no profile and at an
Acme employee queried about the wrong and the right company. -/
theorem get_user_role_in_company_spec_witness :
    get_user_role_in_company demoNoProfile none = none ∧
    is_company_admin demoNoProfile (some demoAcme) = false ∧
    get_user_role_in_company demoEmployeeAcme (some demoGlobex) = none ∧
    get_user_role_in_company demoEmployeeAcme (some demoAcme) = some "EMPLOYEE" ∧
    get_user_role_in_company demoEmployeeAcme none = some "EMPLOYEE" := by
  have h1 := get_user_role_in_company_spec demoNoProfile rfl
  have h2 := get_user_role_in_company_spec demoEmployeeAcme rfl
  refine ⟨(h1.1 rfl none).1, (h1.1 rfl (some demoAcme)).2.1, ?_, ?_, ?_⟩
  · have := (h2.2 ⟨some demoAcme, some "EMPLOYEE"⟩ rfl).1 demoGlobex
    simpa using this
  · have := (h2.2 ⟨some demoAcme, some "EMPLOYEE"⟩ rfl).1 demoAcme
    simpa using this
  · exact (h2.2 ⟨some demoAcme, some "EMPLOYEE"⟩ rfl).2

/-- C4: called with no acting user and no edited user, `log_activity` does
not fan out a system-level entry to the globally-staffed accounts — the
attribute access `user.is_staff` (`utils.py` line 52) raises
`AttributeError` on `None` before any row is created, whatever the user
table, description, target list and company argument are. -/
theorem log_activity_none_actor_raises (allUsers : List User)
    (description : String) (target_users : Option (List User))
    (company_obj : Option Company) :
    log_activity allUsers none description target_users none company_obj =
      .error (.attributeError "NoneType object has no attribute is_staff") := rfl

/-- C10: each of the six signal receivers in `signals.py` calls
`log_activity` with three positional arguments and a `details=` keyword;
`details` is not among `log_activity`'s parameters, so CPython rejects the
binding and every receiver raises `TypeError` before the body of
`log_activity` can create any `RecentActivity` row. -/
theorem signal_receivers_raise_type_error :
    log_activity_params.contains "details" = false ∧
    invoke_log_activity log_user_login_call =
      .error (.typeError "log_activity() got an unexpected keyword argument") ∧
    invoke_log_activity log_user_logout_call =
      .error (.typeError "log_activity() got an unexpected keyword argument") ∧
    invoke_log_activity log_session_save_call =
      .error (.typeError "log_activity() got an unexpected keyword argument") ∧
    invoke_log_activity log_session_delete_call =
      .error (.typeError "log_activity() got an unexpected keyword argument") ∧
    invoke_log_activity log_department_save_call =
      .error (.typeError "log_activity() got an unexpected keyword argument") ∧
    invoke_log_activity log_department_delete_call =
      .error (.typeError "log_activity() got an unexpected keyword argument") :=
  ⟨rfl, rfl, rfl, rfl, rfl, rfl, rfl⟩

/-- C1, counterexample: a non-staff Acme actor with a company-assigned
profile. The claim says the notified staff are exactly the Acme-scoped staff
plus the staff with no profile company; but `demoStaffGlobex` — staff scoped
to a *different* company — also receives exactly one entry, because the
second queryset (`utils.py` line 66) excludes only the actor's own company
rather than restricting to staff without a company. -/
theorem nonstaff_fanout_counterexample :
    demoActor.is_staff = false ∧
    demoActor.userprofile = some ⟨some demoAcme, some "EMPLOYEE"⟩ ∧
    demoStaffGlobex.is_staff = true ∧
    demoStaffGlobex.userprofile = some ⟨some demoGlobex, none⟩ ∧
    demoGlobex ≠ demoAcme ∧
    demoStaffGlobex ∈ demoUsers ∧
    (okRows (log_activity demoUsers (some demoActor) "updated a session"
        none none none)).countP (fun r => r.user_id == demoStaffGlobex.id) = 1 := by
  refine ⟨rfl, rfl, rfl, rfl, by decide, by decide, ?_⟩
  rfl

/-- C1 (amended): for a call with `edited_user = None`, `company_obj` absent,
and a non-staff actor whose profile is assigned to a company, the call
raises nothing and the staff accounts receiving a new `RecentActivity` are
exactly **all** staff accounts of the user table — those scoped to the
actor's company via the company-admin queryset and every other staff account
(other company, no company, or no profile) via the super-admin queryset —
each receiving exactly one entry, with no recipient of the call duplicated. -/
theorem log_activity_nonstaff_notifies_every_staff
    (allUsers : List User) (u : User) (p : UserProfile) (c : Company)
    (description : String) (target_users : Option (List User))
    (hstaff : u.is_staff = false) (hp : u.userprofile = some p)
    (hc : p.company = some c) :
    ∃ rows,
      log_activity allUsers (some u) description target_users none none = .ok rows ∧
      (rows.map RecentActivity.user_id).Nodup ∧
      ∀ a ∈ allUsers, a.is_staff = true →
        rows.countP (fun r => r.user_id == a.id) = 1 := by
  have hpc : profileCompany (some u) = some c := by
    simp [profileCompany, hp, hc]
  have hac : activityCompanyOf (some u) none none = some c := by
    simp [activityCompanyOf, profileCompany, hp, hc]
  have huc : get_company_for_activity (some u) (activityCompanyOf (some u) none none)
      = some c := by
    rw [hac]; rfl
  refine ⟨(target_fanout (target_users.getD [u]) description
      (activityCompanyOf (some u) none none)
      (staff_fanout allUsers u description (some c))).1, ?_, ?_, ?_⟩
  · simp only [log_activity, hstaff, huc, Bool.false_eq_true, if_false]
  · have hinv := target_fanout_inv (target_users.getD [u]) description
      (activityCompanyOf (some u) none none)
      (staff_fanout allUsers u description (some c))
      (staff_fanout_inv allUsers u description (some c))
    exact hinv.1 ▸ hinv.2
  · intro a ha hastaff
    have hinv := target_fanout_inv (target_users.getD [u]) description
      (activityCompanyOf (some u) none none)
      (staff_fanout allUsers u description (some c))
      (staff_fanout_inv allUsers u description (some c))
    have hmem : a.id ∈ (target_fanout (target_users.getD [u]) description
        (activityCompanyOf (some u) none none)
        (staff_fanout allUsers u description (some c))).2 :=
      target_fanout_mem_of_mem _ _ _ _ _
        (staff_fanout_mem allUsers u description c a ha hastaff)
    rw [countP_of_uidInv _ hinv a.id, if_pos hmem]

/-- Witness for C1's amended theorem at the concrete two-company world:
both the Acme-scoped staff account and the company-less staff account
receive exactly one entry. -/
theorem log_activity_nonstaff_witness :
    (okRows (log_activity demoUsers (some demoActor) "updated a session"
        none none none)).countP (fun r => r.user_id == demoStaffAcme.id) = 1 ∧
    (okRows (log_activity demoUsers (some demoActor) "updated a session"
        none none none)).countP (fun r => r.user_id == demoStaffNoCompany.id) = 1 := by
  obtain ⟨rows, heq, _, hall⟩ :=
    log_activity_nonstaff_notifies_every_staff demoUsers demoActor
      ⟨some demoAcme, some "EMPLOYEE"⟩ demoAcme "updated a session" none
      rfl rfl rfl
  have hrows : okRows (log_activity demoUsers (some demoActor)
      "updated a session" none none none) = rows := by
    rw [heq]; rfl
  rw [hrows]
  exact ⟨hall demoStaffAcme (by decide) rfl, hall demoStaffNoCompany (by decide) rfl⟩

/-- C5: any single call with `edited_user = None` that completes creates
pairwise-distinct recipients: the recipient ids of the created rows have no
repetition, so the number of rows equals the number of distinct recipient
ids — at most one row per recipient per call, however `target_users`
overlaps the staff querysets. -/
theorem log_activity_dedup (allUsers : List User) (user : Option User)
    (description : String) (target_users : Option (List User))
    (company_obj : Option Company) (rows : List RecentActivity)
    (h : log_activity allUsers user description target_users none company_obj
      = .ok rows) :
    (rows.map RecentActivity.user_id).Nodup ∧
    rows.length = (rows.map RecentActivity.user_id).dedup.length := by
  cases user with
  | none => simp [log_activity] at h
  | some u =>
    simp only [log_activity] at h
    have hinv : uidInv (target_fanout (target_users.getD [u]) description
        (activityCompanyOf (some u) none company_obj)
        (if u.is_staff then ([], [])
         else staff_fanout allUsers u description
           (get_company_for_activity (some u)
             (activityCompanyOf (some u) none company_obj)))) := by
      refine target_fanout_inv _ _ _ _ ?_
      split
      · exact uidInv_nil
      · exact staff_fanout_inv _ _ _ _
    have hrows : rows = (target_fanout (target_users.getD [u]) description
        (activityCompanyOf (some u) none company_obj)
        (if u.is_staff then ([], [])
         else staff_fanout allUsers u description
           (get_company_for_activity (some u)
             (activityCompanyOf (some u) none company_obj)))).1 := by
      exact (Except.ok.injEq _ _ ▸ h).symm
    have hnd : (rows.map RecentActivity.user_id).Nodup := by
      rw [hrows]
      exact hinv.1 ▸ hinv.2
    refine ⟨hnd, ?_⟩
    rw [List.dedup_eq_self.mpr hnd, List.length_map]

/-- Witness for C5 with a target list that repeats the actor and overlaps
the staff fan-out. -/
theorem log_activity_dedup_witness :
    ((okRows (log_activity demoUsers (some demoActor) "renamed a department"
        (some [demoActor, demoActor, demoStaffAcme]) none none)).map
          RecentActivity.user_id).Nodup ∧
    (okRows (log_activity demoUsers (some demoActor) "renamed a department"
        (some [demoActor, demoActor, demoStaffAcme]) none none)).length =
      ((okRows (log_activity demoUsers (some demoActor) "renamed a department"
        (some [demoActor, demoActor, demoStaffAcme]) none none)).map
          RecentActivity.user_id).dedup.length :=
  log_activity_dedup demoUsers (some demoActor) "renamed a department"
    (some [demoActor, demoActor, demoStaffAcme]) none
    (okRows (log_activity demoUsers (some demoActor) "renamed a department"
      (some [demoActor, demoActor, demoStaffAcme]) none none)) rfl

/-- C9: `RecentActivity` rows are immutable once created except for the read
flag. `log_activity` is append-only on the activity table — a completed call
leaves every pre-existing row in place, only appending; and the single
mutation of existing rows in the repository, the `recent_activities` view's
bulk update, keeps every row's recipient, description and company, toggling
only unread rows of the requesting user to read. -/
theorem recent_activity_append_only_read_flag :
    (∀ (db : List RecentActivity) (allUsers : List User) (user : Option User)
       (description : String) (target_users : Option (List User))
       (edited_user : Option User) (company_obj : Option Company)
       (db' : List RecentActivity),
       apply_log_activity db allUsers user description target_users edited_user
         company_obj = .ok db' →
       ∃ created, db' = db ++ created) ∧
    (∀ (db : List RecentActivity) (uid : Nat),
       List.Forall₂ (fun r r' =>
         r'.user_id = r.user_id ∧ r'.description = r.description ∧
         r'.company = r.company ∧
         (r'.read = r.read ∨ (r.user_id = uid ∧ r'.read = true)))
         db (mark_read db uid)) := by
  constructor
  · intro db allUsers user description target_users edited_user company_obj db' h
    unfold apply_log_activity at h
    cases heq : log_activity allUsers user description target_users edited_user
        company_obj with
    | ok created =>
      rw [heq] at h
      injection h with h'
      exact ⟨created, h'.symm⟩
    | error e =>
      rw [heq] at h
      cases h
  · intro db uid
    induction db with
    | nil => exact List.Forall₂.nil
    | cons r rest ih =>
      simp only [mark_read, List.map] at ih ⊢
      refine List.Forall₂.cons ?_ ih
      by_cases hc : (r.user_id == uid && !r.read) = true
      · rw [if_pos hc]
        have h' := (Bool.and_eq_true _ _).mp hc
        refine ⟨rfl, rfl, rfl, Or.inr ⟨?_, rfl⟩⟩
        exact eq_of_beq h'.1
      · rw [if_neg hc]
        exact ⟨rfl, rfl, rfl, Or.inl rfl⟩

/-- Witness for C9: a concrete completed call appends to the one-row table,
and marking user 1's rows read preserves everything but the flag. -/
theorem recent_activity_append_only_read_flag_witness :
    (∃ created,
      okRows (apply_log_activity demoDb demoUsers (some demoStaffAcme)
        "logged in" none none none) = demoDb ++ created) ∧
    List.Forall₂ (fun r r' =>
      r'.user_id = r.user_id ∧ r'.description = r.description ∧
      r'.company = r.company ∧
      (r'.read = r.read ∨ (r.user_id = 1 ∧ r'.read = true)))
      demoDb (mark_read demoDb 1) :=
  ⟨recent_activity_append_only_read_flag.1 demoDb demoUsers (some demoStaffAcme)
      "logged in" none none none
      (okRows (apply_log_activity demoDb demoUsers (some demoStaffAcme)
        "logged in" none none none)) rfl,
   recent_activity_append_only_read_flag.2 demoDb 1⟩

/-- C6: importing the literal row
`("1","Intro to X","2024/01/15","Pending","Jane Doe","Auditorium","")` with
exactly one Jane Doe account. The **update** half behaves as claimed: with an
existing `(topic, conducted_by)` match the one record is updated in place to
date 2024-01-15, status Pending, place Auditorium. But with no existing
match, `get_or_create` supplies no value for the non-nullable `company`
foreign key of `SessionTopic`, the INSERT raises `IntegrityError`, the outer
handler aborts the batch, and **no** `SessionTopic` is created — contradicting
"creates ... exactly one SessionTopic". -/
theorem upload_literal_row_create_raises :
    processRow [demoJane] [demoJaneOldSession] demoRow6 =
      .ok ([demoJaneUpdatedSession], .updated) ∧
    demoJaneUpdatedSession.date = ⟨2024, 1, 15⟩ ∧
    demoJaneUpdatedSession.status = "Pending" ∧
    demoJaneUpdatedSession.place = "Auditorium" ∧
    processRow [demoJane] [] demoRow6 =
      .error (.integrityError
        "NOT NULL constraint failed: management_sessiontopic.company_id") ∧
    (upload_rows [demoJane] [] [demoRow6]).1 = [] :=
  ⟨rfl, rfl, rfl, rfl, rfl, rfl⟩

/-- C7: the upsert keyed by `(topic, conducted_by)`. The update half of the
claim holds and is idempotent — re-importing the same row over an existing
match rewrites the same single record in place, creating no duplicate. The
create half fails: for a pair with no existing match, the create path raises
`IntegrityError` (no `company` supplied for the non-nullable foreign key)
instead of creating exactly one new `SessionTopic`. -/
theorem upload_upsert_update_no_duplicate_create_raises :
    processRow [demoJohn] [demoJohnSession] demoRow7 =
      .ok ([demoJohnSessionUpdated], .updated) ∧
    processRow [demoJohn] [demoJohnSessionUpdated] demoRow7 =
      .ok ([demoJohnSessionUpdated], .updated) ∧
    (upload_rows [demoJohn] [demoJohnSession] [demoRow7, demoRow7]).1 =
      [demoJohnSessionUpdated] ∧
    processRow [demoJohn] [] demoRow7 =
      .error (.integrityError
        "NOT NULL constraint failed: management_sessiontopic.company_id") :=
  ⟨rfl, rfl, rfl, rfl⟩

/-- C8: the header row written by `export_sessions` for a non-empty pending
set is `No., Date, Topic, Status, Assigned To, Place` — `Date` and `Topic`
swapped and `Cancelled Reason` missing relative to the claimed schema, which
is exactly the `expected_headers` list that `upload_sessions_excel` itself
validates uploads against; the export therefore produces files its own
importer rejects. -/
theorem export_headers_diverge_from_schema :
    export_headers [demoPendingSession] =
      ["No.", "Date", "Topic", "Status", "Assigned To", "Place"] ∧
    expected_headers =
      ["No.", "Topic", "Date", "Status", "Assigned To", "Place",
       "Cancelled Reason"] ∧
    export_headers [demoPendingSession] ≠ expected_headers := by
  refine ⟨rfl, rfl, ?_⟩
  decide

end SessionMgmt
